import Mathlib

/-!
Shallow embedding of the TorDeck automation rule engine
(`src/hooks/useAutomations.ts` and the TorBox API service it calls).

JavaScript numbers are modelled as rationals (all numeric fields occurring
in this engine are finite); ISO-8601 timestamp strings are modelled by their
epoch-millisecond value (the code only ever compares them numerically after
`new Date(x).getTime()`); thrown JS errors are modelled by their message
string.
-/

namespace TorDeck

/-- Model of a JavaScript value as it flows through `compareValues`:
either a (finite) number or a string. -/
inductive JVal where
  | num (q : ℚ)
  | str (s : String)
deriving DecidableEq

/-- Model of JavaScript `String.prototype.trim` (the whitespace occurring
in this program is ASCII). -/
def jsTrim (s : String) : String :=
  ⟨((s.toList.dropWhile Char.isWhitespace).reverse.dropWhile Char.isWhitespace).reverse⟩

/-- Model of JavaScript `String.prototype.toLowerCase` (the strings this
engine lowercases are ASCII). -/
def jsToLower (s : String) : String :=
  ⟨s.toList.map Char.toLower⟩

/-- Model of JavaScript `String.prototype.startsWith`. -/
def strStartsWith (s pre : String) : Bool :=
  pre.toList.isPrefixOf s.toList

/-- Lexicographic order on character lists by code point, as JavaScript
`<`/`>` compare strings. -/
def charListLt : List Char → List Char → Bool
  | [], [] => false
  | [], _ :: _ => true
  | _ :: _, [] => false
  | a :: as, b :: bs =>
    if a.toNat < b.toNat then true
    else if b.toNat < a.toNat then false
    else charListLt as bs

/-- JavaScript `a < b` on strings. -/
def strLexLt (a b : String) : Bool :=
  charListLt a.toList b.toList

/-- Digit list to natural number, `['1','2'] ↦ 12`. -/
def digitsToNat (cs : List Char) : ℕ :=
  cs.foldl (fun a c => 10 * a + (c.toNat - 48)) 0

/-- Parse an unsigned decimal literal (`"12"`, `"12.5"`, `".5"`, `"12."`),
as JavaScript `Number(...)` accepts after an optional sign.  Returns `none`
when the characters do not form a decimal literal (JS would yield `NaN`,
or a non-finite / non-decimal form such as hex or exponent notation, none
of which occur as rule values in this program).  The value
`intPart.fracPart` is the rational `(intPart·10^k + fracPart) / 10^k`. -/
def parseUnsigned (cs : List Char) : Option ℚ :=
  let intPart := cs.takeWhile (fun c => c ≠ '.')
  let rest := cs.dropWhile (fun c => c ≠ '.')
  match rest with
  | [] =>
    if intPart ≠ [] ∧ intPart.all Char.isDigit then some (digitsToNat intPart) else none
  | _ :: frac =>
    if (intPart ≠ [] ∨ frac ≠ []) ∧ intPart.all Char.isDigit ∧ frac.all Char.isDigit then
      some (mkRat (digitsToNat intPart * 10 ^ frac.length + digitsToNat frac) (10 ^ frac.length))
    else none

/-- Model of JavaScript `Number(s)` restricted to the finite results the
`Number.isFinite` gate in `compareValues` lets through: whitespace is
trimmed, the empty string is `0`, otherwise an optionally signed decimal
literal; `none` models "not a finite number". -/
def jsNumber (s : String) : Option ℚ :=
  let t := jsTrim s
  if t = "" then some 0
  else
    match t.toList with
    | '-' :: rest => (parseUnsigned rest).map (fun q => -q)
    | '+' :: rest => parseUnsigned rest
    | cs => parseUnsigned cs

/-- Model of JavaScript `String(n)` for the numbers this engine stringifies
(integral values are printed exactly as JS does; non-integral rationals are
given an arbitrary stable form, no theorem in this file evaluates one). -/
def jsNumToString (q : ℚ) : String :=
  if q.den = 1 then toString q.num
  else toString q.num ++ "/" ++ toString q.den

/-- JavaScript `Number(v)` on a value: numbers pass through (always finite
in this model), strings are parsed. -/
def jvalNumber : JVal → Option ℚ
  | .num q => some q
  | .str s => jsNumber s

/-- JavaScript `String(v)`. -/
def jvalToString : JVal → String
  | .num q => jsNumToString q
  | .str s => s

/-- JavaScript strict equality `===` on our value model: values of
different types are never equal. -/
def jvalStrictEq : JVal → JVal → Bool
  | .num a, .num b => decide (a = b)
  | .str a, .str b => decide (a = b)
  | _, _ => false

/-- Substring test, JavaScript `String.prototype.includes`. -/
def strIncludes (hay needle : String) : Bool :=
  hay.toList.tails.any (fun t => needle.toList.isPrefixOf t)

/-- Rule comparison operators (`TorBoxRuleOperator`). -/
inductive Operator where
  | equals | not_equals | greater_than | less_than
  | greater_than_or_equal | less_than_or_equal | contains
deriving DecidableEq

/-- Rule actions (`TorBoxRuleAction`); the enum is closed, so the
`SUPPORTED_ACTION_SET` membership test of the source is always true here. -/
inductive RuleAction where
  | delete_download | pause_download | resume_download | reannounce_torrent
  | request_download_link | create_stream | notify_user
deriving DecidableEq

/-- Rule scopes (`TorBoxRuleScope`). -/
inductive Scope where
  | all | torrent | usenet | web
deriving DecidableEq

/-- Download kinds (`AutomationSource`). -/
inductive Source where
  | torrent | usenet | web
deriving DecidableEq

/-- Condition fields (`TorBoxRuleConditionField`). -/
inductive ConditionField where
  | progress | eta | current_download_speed | average_download_speed
  | download_stalled_time | upload_stalled_time | seeding_ratio | peers
  | age | tracker | availability | status | download_type | name_contains | size
deriving DecidableEq

/-- `TorBoxRuleCondition`. -/
structure TorBoxRuleCondition where
  field : ConditionField
  operator : Operator
  value : String
deriving DecidableEq

/-- `compareValues` from `useAutomations.ts`:
the right-hand rule value is parsed to a number when `Number.isFinite`
accepts it, otherwise lowercased; the left side stays numeric only when it
is numeric and the right side is; operators then compare as the source
does (strict equality, `Number`-coerced ordering, stringified substring). -/
def compareValues (left : JVal) (rightRaw : String) (operator : Operator) : Bool :=
  let rightNum? := jsNumber rightRaw
  let leftNum? := jvalNumber left
  let right : JVal :=
    match rightNum? with
    | some q => .num q
    | none => .str (jsToLower rightRaw)
  let l : JVal :=
    match leftNum?, right with
    | some q, .num _ => .num q
    | _, _ => .str (jsToLower (jvalToString left))
  match operator with
  | .equals => jvalStrictEq l right
  | .not_equals => ! jvalStrictEq l right
  | .greater_than =>
    match jvalNumber l, jvalNumber right with
    | some a, some b => decide (a > b)
    | _, _ => false
  | .less_than =>
    match jvalNumber l, jvalNumber right with
    | some a, some b => decide (a < b)
    | _, _ => false
  | .greater_than_or_equal =>
    match jvalNumber l, jvalNumber right with
    | some a, some b => decide (a ≥ b)
    | _, _ => false
  | .less_than_or_equal =>
    match jvalNumber l, jvalNumber right with
    | some a, some b => decide (a ≤ b)
    | _, _ => false
  | .contains => strIncludes (jvalToString l) (jvalToString right)

/-- `AutomationTarget`: the normalized snapshot of one remote download.
`createdAt` is the epoch-millisecond value of the ISO string the source
stores (used only through `new Date(...).getTime()`). -/
structure AutomationTarget where
  source : Source
  sourceId : ℕ
  name : String
  progress : ℚ
  eta : ℚ
  downloadSpeed : ℚ
  downloadState : String
  peers : ℚ
  ratio : ℚ
  availability : ℚ
  createdAt : Int
  tracker : Option String
  stalledMinutes : ℚ
  fileIds : List ℕ
  size : ℚ
deriving DecidableEq

/-- The `download_type` string a target contributes to the field map. -/
def sourceString : Source → String
  | .torrent => "torrent"
  | .usenet => "usenet"
  | .web => "web"

/-- The `fieldMap` of `matchesRule`: resolves a condition field to the
target's value; `age` is derived as floored days since `createdAt`
(`Math.floor` rounds toward negative infinity, hence `Int.fdiv`). -/
def fieldValue (target : AutomationTarget) (nowMs : Int) : ConditionField → JVal
  | .progress => .num target.progress
  | .eta => .num target.eta
  | .current_download_speed => .num target.downloadSpeed
  | .average_download_speed => .num target.downloadSpeed
  | .download_stalled_time => .num target.stalledMinutes
  | .upload_stalled_time => .num target.stalledMinutes
  | .seeding_ratio => .num target.ratio
  | .peers => .num target.peers
  | .age => .num ((Int.fdiv (nowMs - target.createdAt) 86400000 : Int) : ℚ)
  | .tracker => .str (target.tracker.getD "")
  | .availability => .num target.availability
  | .status => .str target.downloadState
  | .download_type => .str (sourceString target.source)
  | .name_contains => .str target.name
  | .size => .num target.size

/-- One condition of `matchesRule`'s `every` callback: an
empty/whitespace-only value is vacuously true, otherwise `compareValues`. -/
def conditionHolds (nowMs : Int) (target : AutomationTarget)
    (cond : TorBoxRuleCondition) : Bool :=
  if jsTrim cond.value = "" then true
  else compareValues (fieldValue target nowMs cond.field) cond.value cond.operator

/-- The scope guard of `matchesRule`:
`rule.scope && rule.scope !== 'all' && target.source !== rule.scope`. -/
def scopeBlocks : Option Scope → Source → Bool
  | none, _ => false
  | some .all, _ => false
  | some .torrent, src => decide (src ≠ .torrent)
  | some .usenet, src => decide (src ≠ .usenet)
  | some .web, src => decide (src ≠ .web)

/-- `TorBoxRule` (persisted rule).  `lastRunAt` and `createdAt` are the
epoch values of the stored ISO strings; `scope` is optional as in the
TypeScript type. -/
structure TorBoxRule where
  id : String
  name : String
  enabled : Bool
  checkIntervalMinutes : ℚ
  conditions : List TorBoxRuleCondition
  action : RuleAction
  actionValue : Option String
  scope : Option Scope
  isDangerous : Bool
  isCustom : Bool
  lastRunAt : Option Int
  lastResult : Option String
  runCount : ℕ
  createdAt : Int
deriving DecidableEq

/-- `matchesRule` from `useAutomations.ts`. -/
def matchesRule (nowMs : Int) (rule : TorBoxRule) (target : AutomationTarget) : Bool :=
  if scopeBlocks rule.scope target.source then false
  else rule.conditions.all (conditionHolds nowMs target)

/-- One remote-API invocation made by `executeAction` (the TorBox service
methods it awaits). -/
inductive ApiCall where
  | controlTorrent (id : ℕ) (op : String)
  | controlUsenet (id : ℕ) (op : String)
  | controlWebDownload (id : ℕ) (op : String)
  | deleteItem (source : Source) (id : ℕ)
  | getDownloadLink (source : Source) (id fileId : ℕ)
  | getStreamLink (source : Source) (id fileId : ℕ)
deriving DecidableEq

/-- Behaviour of the remote API during one run: `none` means the awaited
call resolves, `some msg` means it rejects (the service methods throw an
`Error` whose message is `msg` on HTTP or `success:false` failures). -/
def ApiEnv : Type := ApiCall → Option String

/-- The kind-appropriate control call of the pause/resume cases (exactly
one of the three `if (target.source === ...)` branches fires). -/
def controlCall (t : AutomationTarget) (op : String) : ApiCall :=
  match t.source with
  | .torrent => .controlTorrent t.sourceId op
  | .usenet => .controlUsenet t.sourceId op
  | .web => .controlWebDownload t.sourceId op

/-- The loop body of `executeAction` for one target: the API calls it
awaits (in order) and whether `affected++` runs after they all resolve.
The `request_download_link`/`create_stream` cases read `fileIds[0]` and
skip on JavaScript falsiness (`if (!fileId) break`), so both a missing
first file id and the number `0` skip the target. -/
def execTargetCalls (action : RuleAction) (t : AutomationTarget) : List ApiCall × Bool :=
  match action with
  | .pause_download => ([controlCall t "pause"], true)
  | .resume_download => ([controlCall t "resume"], true)
  | .reannounce_torrent =>
    if t.source = .torrent then ([.controlTorrent t.sourceId "reannounce"], true)
    else ([], false)
  | .delete_download => ([.deleteItem t.source t.sourceId], true)
  | .request_download_link =>
    match t.fileIds with
    | [] => ([], false)
    | fid :: _ => if fid = 0 then ([], false) else ([.getDownloadLink t.source t.sourceId fid], true)
  | .create_stream =>
    match t.fileIds with
    | [] => ([], false)
    | fid :: _ => if fid = 0 then ([], false) else ([.getStreamLink t.source t.sourceId fid], true)
  | .notify_user => ([], true)

/-- Awaits a list of calls in order; stops at (and returns) the first
rejection, as an uncaught `await` throw does. -/
def runCalls (env : ApiEnv) : List ApiCall → List ApiCall × Option String
  | [] => ([], none)
  | c :: cs =>
    match env c with
    | some m => ([c], some m)
    | none =>
      let (made, e) := runCalls env cs
      (c :: made, e)

/-- The `for (const target of targets)` loop of `executeAction`: threads
the `affected` counter, records every call attempted, and aborts the whole
loop at the first throwing call (there is no per-target `try`/`catch`). -/
def execLoop (env : ApiEnv) (action : RuleAction) :
    List AutomationTarget → ℕ → List ApiCall × ℕ × Option String
  | [], affected => ([], affected, none)
  | t :: ts, affected =>
    let step := execTargetCalls action t
    match runCalls env step.1 with
    | (made, some m) => (made, affected, some m)
    | (made, none) =>
      let rest := execLoop env action ts (affected + (if step.2 then 1 else 0))
      (made ++ rest.1, rest.2.1, rest.2.2)

/-- `${affected} item${affected === 1 ? '' : 's'}`. -/
def itemNoun (n : ℕ) : String :=
  toString n ++ " item" ++ (if n = 1 then "" else "s")

/-- Result of `executeAction`: either the returned summary string or the
message of the error it threw. -/
inductive Outcome where
  | ok (summary : String)
  | thrown (msg : String)
deriving DecidableEq

/-- What one `executeAction` call did: the API calls awaited (in order),
the app notifications appended, and its outcome. -/
structure ExecResult where
  calls : List ApiCall
  notifications : List String
  outcome : Outcome
deriving DecidableEq

/-- `executeAction` from `useAutomations.ts`.  An empty target list
returns early; otherwise the per-target loop runs, and on normal
completion a summary notification is appended when anything was affected
(the `appendAppNotification` await is modelled as always resolving). -/
def executeAction (env : ApiEnv) (rule : TorBoxRule)
    (targets : List AutomationTarget) : ExecResult :=
  if targets.isEmpty then ⟨[], [], .ok "No matching downloads found."⟩
  else
    match execLoop env rule.action targets 0 with
    | (calls, _, some m) => ⟨calls, [], .thrown m⟩
    | (calls, affected, none) =>
      let notifs :=
        if affected > 0 then [rule.name ++ " processed " ++ itemNoun affected ++ "."] else []
      let summary :=
        if affected > 0 then "Processed " ++ itemNoun affected ++ "."
        else "No supported items matched this action."
      ⟨calls, notifs, .ok summary⟩

/-- `isActionSupportedForScope`:
`!(action === 'reannounce_torrent' && scope !== 'torrent')`. -/
def isActionSupportedForScope (action : RuleAction) (scope : Scope) : Bool :=
  !(decide (action = .reannounce_torrent) && decide (scope ≠ .torrent))

/-- `TorBoxRulePreset` (immutable template). -/
structure TorBoxRulePreset where
  id : String
  name : String
  description : String
  checkIntervalMinutes : ℚ
  conditions : List TorBoxRuleCondition
  action : RuleAction
  actionValue : Option String
  scope : Option Scope
  isDangerous : Bool
  category : String
deriving DecidableEq

/-- `TORBOX_RULE_PRESETS` from `useAutomations.ts`. -/
def TORBOX_RULE_PRESETS : List TorBoxRulePreset :=
  [ { id := "pause_stalled_downloads", name := "Pause stalled downloads",
      description := "Pauses active items stalled for more than 20 minutes.",
      checkIntervalMinutes := 10,
      conditions := [⟨.download_stalled_time, .greater_than, "20"⟩],
      action := .pause_download, actionValue := none, scope := none,
      isDangerous := false, category := "transfer" },
    { id := "resume_when_progress_seen", name := "Resume paused downloads",
      description := "Resumes paused downloads automatically.",
      checkIntervalMinutes := 10,
      conditions := [⟨.status, .equals, "paused"⟩],
      action := .resume_download, actionValue := none, scope := none,
      isDangerous := false, category := "transfer" },
    { id := "reannounce_stalled_torrents", name := "Reannounce stalled torrents",
      description := "Reannounces stalled torrents to refresh trackers.",
      checkIntervalMinutes := 15,
      conditions := [⟨.download_stalled_time, .greater_than, "15"⟩],
      action := .reannounce_torrent, actionValue := none, scope := some .torrent,
      isDangerous := false, category := "maintenance" },
    { id := "completed_notify", name := "Notify on completion",
      description := "Creates a local notification when an item reaches 100%.",
      checkIntervalMinutes := 5,
      conditions := [⟨.progress, .equals, "100"⟩],
      action := .notify_user, actionValue := none, scope := none,
      isDangerous := false, category := "completion" },
    { id := "notify_errors", name := "Notify on failed downloads",
      description := "Creates a local notification when a download enters error state.",
      checkIntervalMinutes := 5,
      conditions := [⟨.status, .equals, "error"⟩],
      action := .notify_user, actionValue := none, scope := none,
      isDangerous := false, category := "transfer" },
    { id := "completed_get_link", name := "Auto-generate download link",
      description := "Requests a download link when item completes.",
      checkIntervalMinutes := 10,
      conditions := [⟨.progress, .equals, "100"⟩],
      action := .request_download_link, actionValue := none, scope := none,
      isDangerous := false, category := "completion" },
    { id := "stream_ready_media", name := "Create stream links for completed media",
      description := "Requests stream links for completed items.",
      checkIntervalMinutes := 15,
      conditions := [⟨.progress, .equals, "100"⟩],
      action := .create_stream, actionValue := none, scope := none,
      isDangerous := false, category := "playback" },
    { id := "delete_very_old_completed", name := "Delete very old completed",
      description := "Deletes completed downloads older than 60 days. DANGEROUS.",
      checkIntervalMinutes := 1440,
      conditions := [⟨.age, .greater_than, "60"⟩, ⟨.progress, .equals, "100"⟩],
      action := .delete_download, actionValue := none, scope := none,
      isDangerous := true, category := "completion" },
    { id := "auto_delete_old_failed", name := "Auto-delete old failed downloads",
      description := "Deletes failed downloads older than 7 days. DANGEROUS.",
      checkIntervalMinutes := 1440,
      conditions := [⟨.status, .equals, "error"⟩, ⟨.age, .greater_than, "7"⟩],
      action := .delete_download, actionValue := none, scope := none,
      isDangerous := true, category := "completion" },
    { id := "pause_high_eta_downloads", name := "Pause very long ETA downloads",
      description := "Pauses items with ETA above 2 days (172800s).",
      checkIntervalMinutes := 20,
      conditions := [⟨.eta, .greater_than, "172800"⟩],
      action := .pause_download, actionValue := none, scope := none,
      isDangerous := false, category := "transfer" },
    { id := "resume_stalled_items", name := "Resume stalled transfers",
      description := "Resumes stalled transfers to kick progress.",
      checkIntervalMinutes := 15,
      conditions := [⟨.status, .contains, "stalled"⟩],
      action := .resume_download, actionValue := none, scope := none,
      isDangerous := false, category := "transfer" },
    { id := "notify_slow_downloads", name := "Notify on slow downloads",
      description := "Sends notification when download speed drops below 10KB/s.",
      checkIntervalMinutes := 10,
      conditions := [⟨.current_download_speed, .less_than, "10240"⟩,
                     ⟨.status, .contains, "download"⟩],
      action := .notify_user, actionValue := none, scope := none,
      isDangerous := false, category := "transfer" },
    { id := "generate_links_for_cached", name := "Generate links for cached items",
      description := "Requests download links for cached/completed items.",
      checkIntervalMinutes := 30,
      conditions := [⟨.status, .contains, "cached"⟩],
      action := .request_download_link, actionValue := none, scope := none,
      isDangerous := false, category := "completion" },
    { id := "stream_ready_cached", name := "Create stream links for cached items",
      description := "Builds stream links for cached/completed files.",
      checkIntervalMinutes := 30,
      conditions := [⟨.status, .contains, "cached"⟩],
      action := .create_stream, actionValue := none, scope := none,
      isDangerous := false, category := "playback" },
    { id := "notify_torrent_tracker_issues", name := "Notify tracker-related stalls",
      description := "Notifies when torrent tracker field contains warning text.",
      checkIntervalMinutes := 15,
      conditions := [⟨.tracker, .contains, "error"⟩],
      action := .notify_user, actionValue := none, scope := some .torrent,
      isDangerous := false, category := "maintenance" } ]

/-- `createRuleFromPreset`: seeds a fresh rule from a preset; `enabled` is
literally `false` and the generated id embeds `Date.now()` (`nowMs`). -/
def createRuleFromPreset (preset : TorBoxRulePreset) (nowMs : Int) : TorBoxRule :=
  { id := "rule_" ++ preset.id ++ "_" ++ toString nowMs,
    name := preset.name,
    enabled := false,
    checkIntervalMinutes := preset.checkIntervalMinutes,
    conditions := preset.conditions,
    action := preset.action,
    actionValue := preset.actionValue,
    scope := some (preset.scope.getD .all),
    isDangerous := preset.isDangerous,
    isCustom := false,
    lastRunAt := none,
    lastResult := none,
    runCount := 0,
    createdAt := nowMs }

/-- `addRuleFromPreset`: looks the preset up, and for a dangerous preset
only persists after the user confirms the alert (`confirmDangerous` models
the user's choice in the `Alert.alert` dialog). -/
def addRuleFromPreset (rules : List TorBoxRule) (presetId : String) (nowMs : Int)
    (confirmDangerous : Bool) : List TorBoxRule × Option TorBoxRule :=
  match TORBOX_RULE_PRESETS.find? (fun p => decide (p.id = presetId)) with
  | none => (rules, none)
  | some preset =>
    let rule := createRuleFromPreset preset nowMs
    if rule.isDangerous && !confirmDangerous then (rules, none)
    else (rules ++ [rule], some rule)

/-- Parameters of `createCustomRule`. -/
structure CustomRuleParams where
  name : String
  checkIntervalMinutes : ℚ
  conditions : List TorBoxRuleCondition
  action : RuleAction
  actionValue : Option String
  scope : Option Scope

/-- `createCustomRule`: the `SUPPORTED_ACTION_SET` membership test is
always true for the closed action enum; the scope-compatibility check
throws (`Except.error`) before anything is persisted, so on error the
returned rule list is the unchanged input. -/
def createCustomRule (rules : List TorBoxRule) (params : CustomRuleParams)
    (nowMs : Int) : List TorBoxRule × Except String TorBoxRule :=
  let scope := params.scope.getD .all
  if !isActionSupportedForScope params.action scope then
    (rules, .error "This action is not supported for the selected scope.")
  else
    let rule : TorBoxRule :=
      { id := "rule_custom_" ++ toString nowMs,
        name := params.name,
        enabled := false,
        checkIntervalMinutes := max 1 params.checkIntervalMinutes,
        conditions := params.conditions,
        action := params.action,
        actionValue := params.actionValue,
        scope := some scope,
        isCustom := true,
        isDangerous := decide (params.action = .delete_download),
        lastRunAt := none,
        lastResult := none,
        runCount := 0,
        createdAt := nowMs }
    (rules ++ [rule], .ok rule)

/-- The partial update object of `updateRule`
(`Partial<Pick<TorBoxRule, 'name' | ... | 'scope'>>`); `none` models an
absent key. -/
structure RuleUpdates where
  name : Option String := none
  checkIntervalMinutes : Option ℚ := none
  conditions : Option (List TorBoxRuleCondition) := none
  action : Option RuleAction := none
  actionValue : Option String := none
  scope : Option Scope := none

/-- The object spread `{ ...r, ...updates }`. -/
def applyUpdates (r : TorBoxRule) (u : RuleUpdates) : TorBoxRule :=
  { r with
    name := u.name.getD r.name,
    checkIntervalMinutes := u.checkIntervalMinutes.getD r.checkIntervalMinutes,
    conditions := u.conditions.getD r.conditions,
    action := u.action.getD r.action,
    actionValue := match u.actionValue with | some v => some v | none => r.actionValue,
    scope := match u.scope with | some s => some s | none => r.scope }

/-- The prospective scope `updateRule` validates:
`updates.scope ?? existing.scope ?? 'all'`. -/
def resolvedScope (u : RuleUpdates) (existing : TorBoxRule) : Scope :=
  ((match u.scope with | some s => some s | none => existing.scope)).getD .all

/-- `updateRule`: recomputes the prospective action/scope with `??`
fallbacks and rejects (alert, no persist — the `Bool` is whether the
"Unsupported Rule" alert was shown) an illegal combination. -/
def updateRule (rules : List TorBoxRule) (ruleId : String) (u : RuleUpdates) :
    List TorBoxRule × Bool :=
  match rules.find? (fun r => decide (r.id = ruleId)) with
  | none => (rules, false)
  | some existing =>
    let nextAction := u.action.getD existing.action
    let nextScope := resolvedScope u existing
    if !isActionSupportedForScope nextAction nextScope then (rules, true)
    else (rules.map (fun r => if r.id = ruleId then applyUpdates r u else r), false)

/-- The inputs one `runRule` invocation reads: the current rule list, the
in-flight run-lock set, what `toTargets()` would yield this run (`error`
models the snapshot fetch throwing), how each remote action call behaves,
and the current clock (`Date.now()` in epoch ms). -/
structure RunInput where
  rules : List TorBoxRule
  lock : List String
  fetch : Except String (List AutomationTarget)
  env : ApiEnv
  nowMs : Int

/-- Everything observable about one `runRule` invocation: the persisted
rule list, the run-lock set after the `finally`, the remote calls made,
the notifications appended, whether `executeAction` was invoked, and the
`Alert.alert` shown to the user (title, message) if any. -/
structure RunOutput where
  rules : List TorBoxRule
  lock : List String
  calls : List ApiCall
  notifications : List String
  executorInvoked : Bool
  alert : Option (String × String)

/-- A trigger that falls through without doing anything. -/
def noChange (inp : RunInput) : RunOutput :=
  ⟨inp.rules, inp.lock, [], [], false, none⟩

/-- The run-metadata write both branches of `runRule`'s `try`/`catch`
perform: `lastRunAt := now`, `runCount + 1`, and the given `lastResult`. -/
def recordRun (rules : List TorBoxRule) (ruleId : String) (nowMs : Int)
    (msg : String) : List TorBoxRule :=
  rules.map (fun r =>
    if r.id = ruleId then
      { r with lastRunAt := some nowMs, runCount := r.runCount + 1, lastResult := some msg }
    else r)

/-- `runRule` from `useAutomations.ts`.  Guards in source order: run-lock
membership, rule lookup, the enabled check (skipped when
`options.allowDisabled`), and the scope-support check (which disables the
rule without touching its run history).  The locked path adds the id, runs
the `try`/`catch` (fetch, filter, `executeAction`, record + persist,
manual alert), and the `finally` removes the id again, so the returned
lock set equals the input one. -/
def runRule (inp : RunInput) (ruleId : String) (manual : Bool)
    (allowDisabled : Bool) : RunOutput :=
  if inp.lock.contains ruleId then noChange inp
  else
    match inp.rules.find? (fun r => decide (r.id = ruleId)) with
    | none => noChange inp
    | some rule =>
      if !rule.enabled && !allowDisabled then noChange inp
      else if !isActionSupportedForScope rule.action (rule.scope.getD .all) then
        { rules := inp.rules.map (fun r =>
            if r.id = rule.id then
              { r with lastResult := some "Unsupported scope/action combination.",
                       enabled := false }
            else r),
          lock := inp.lock, calls := [], notifications := [],
          executorInvoked := false, alert := none }
      else
        match inp.fetch with
        | .error e =>
          { rules := recordRun inp.rules rule.id inp.nowMs ("Failed: " ++ e),
            lock := inp.lock, calls := [], notifications := [],
            executorInvoked := false,
            alert := if manual then some ("Rule Failed", e) else none }
        | .ok snapshot =>
          let targets := snapshot.filter (matchesRule inp.nowMs rule)
          let res := executeAction inp.env rule targets
          match res.outcome with
          | .ok summary =>
            { rules := recordRun inp.rules rule.id inp.nowMs
                ((if manual then "Manual run" else "Scheduled run") ++ ": " ++ summary),
              lock := inp.lock, calls := res.calls,
              notifications := res.notifications, executorInvoked := true,
              alert := if manual then some ("Rule Executed", rule.name ++ ": " ++ summary)
                       else none }
          | .thrown m =>
            { rules := recordRun inp.rules rule.id inp.nowMs ("Failed: " ++ m),
              lock := inp.lock, calls := res.calls,
              notifications := res.notifications, executorInvoked := true,
              alert := if manual then some ("Rule Failed", m) else none }

/-- `runNow`: the manual trigger.  After the 30-second cooldown check it
calls `runRule(ruleId, 'manual', { allowDisabled: true })`. -/
def runNow (inp : RunInput) (ruleId : String) : RunOutput :=
  match inp.rules.find? (fun r => decide (r.id = ruleId)) with
  | none => noChange inp
  | some rule =>
    match rule.lastRunAt with
    | some last =>
      if inp.nowMs - last < 30000 then
        { noChange inp with
          alert := some ("Throttled", "Please wait at least 30 seconds between manual runs.") }
      else runRule inp ruleId true true
    | none => runRule inp ruleId true true

/-- The per-rule body of the 30-second scheduler tick: whether this tick
triggers `runRule(rule.id, 'poll')` for the rule. -/
def tickTriggers (rule : TorBoxRule) (nowMs : Int) : Bool :=
  rule.enabled &&
    decide ((nowMs : ℚ) - ((rule.lastRunAt.getD 0 : Int) : ℚ)
      ≥ max 1 rule.checkIntervalMinutes * 60000)

/-- How one `runRule` attempt for a given rule id ends: the fetch and all
action calls resolve, the snapshot fetch throws, or `executeAction`
throws.  Used by the interleaving model of the run-lock below. -/
inductive RunOutcome where
  | success
  | fetchFail
  | execFail
deriving DecidableEq

/-- One `runRule` task as the sequence of atomic segments between its
`await` suspension points (JavaScript runs each segment without
interleaving):
`pc = 0` — the synchronous prefix: the `runLockRef.current.has` check and,
when free, the guards plus `runLockRef.current.add` (no `await` separates
the check from the add);
`pc = 1` — the `toTargets()` await (a throw jumps to the `catch`);
`pc = 2` — the `executeAction` invocation (counted in `inv`);
`pc = 3` — the record/persist write of the `try` or `catch` branch;
`pc = 4` — the `finally` clearing the lock;
`pc = 5` — done, skipped by the lock; `pc = 6` — done after running.
Returns the new `(pc, lock, inv)`. -/
def taskStep (o : RunOutcome) (pc : ℕ) (lock : Bool) (inv : ℕ) : ℕ × Bool × ℕ :=
  match pc with
  | 0 => if lock then (5, lock, inv) else (1, true, inv)
  | 1 => (if o = RunOutcome.fetchFail then 3 else 2, lock, inv)
  | 2 => (3, lock, inv + 1)
  | 3 => (4, lock, inv)
  | 4 => (6, false, inv)
  | pc => (pc, lock, inv)

/-- Two concurrent `runRule` tasks for the same rule id sharing the lock
flag for that id and the count `inv` of `executeAction` invocations. -/
structure LockSys where
  lock : Bool
  inv : ℕ
  pc1 : ℕ
  pc2 : ℕ
deriving DecidableEq

/-- Advance one of the two tasks (`false` = first, `true` = second). -/
def sysStep (o1 o2 : RunOutcome) (s : LockSys) (i : Bool) : LockSys :=
  if i then
    let r := taskStep o2 s.pc2 s.lock s.inv
    { s with pc2 := r.1, lock := r.2.1, inv := r.2.2 }
  else
    let r := taskStep o1 s.pc1 s.lock s.inv
    { s with pc1 := r.1, lock := r.2.1, inv := r.2.2 }

/-- Run a whole interleaving schedule. -/
def sysRun (o1 o2 : RunOutcome) (sched : List Bool) (s : LockSys) : LockSys :=
  sched.foldl (sysStep o1 o2) s

/-- The state right after the first task is triggered on a free lock:
its synchronous prefix has taken the lock. -/
def lockStart : LockSys := ⟨true, 0, 1, 0⟩

/-- A concrete torrent target (id and progress parameters) used by the
concrete evaluations below. -/
def sampleTarget (pid : ℕ) (pr : ℚ) : AutomationTarget :=
  { source := .torrent, sourceId := pid, name := "Sample", progress := pr, eta := 0,
    downloadSpeed := 0, downloadState := "downloading", peers := 0, ratio := 0,
    availability := 0, createdAt := 0, tracker := none, stalledMinutes := 0,
    fileIds := [1], size := 0 }

/-- The rule of spec Scenario A: `progress equals '100'`, `notify_user`,
scope `all`. -/
def sampleRule : TorBoxRule :=
  { id := "r1", name := "Notify on completion", enabled := true,
    checkIntervalMinutes := 5, conditions := [⟨.progress, .equals, "100"⟩],
    action := .notify_user, actionValue := none, scope := some .all,
    isDangerous := false, isCustom := false, lastRunAt := none,
    lastResult := none, runCount := 0, createdAt := 0 }

/-- A remote API on which every call resolves. -/
def okEnv : ApiEnv := fun _ => none

/-- A download-link rule for the witness of the zero-file-id claim. -/
def linkRule : TorBoxRule :=
  { sampleRule with action := .request_download_link, conditions := [] }

/-- The illegal custom-rule parameters of spec Scenario C:
`reannounce_torrent` with scope `web`. -/
def scenarioCParams : CustomRuleParams :=
  { name := "x", checkIntervalMinutes := 5, conditions := [],
    action := .reannounce_torrent, actionValue := none, scope := some .web }

/-- A remote API on which pausing torrent 1 rejects with "boom" and every
other call resolves. -/
def failPauseEnv : ApiEnv :=
  fun c => if c = ApiCall.controlTorrent 1 "pause" then some "boom" else none

/-- An unconditional pause rule. -/
def pauseRule : TorBoxRule :=
  { sampleRule with action := .pause_download, conditions := [], name := "Pause all" }

/-- The sample rule, disabled and unconditional. -/
def disabledRule : TorBoxRule :=
  { sampleRule with enabled := false, conditions := [] }

/-- A run input whose only rule is disabled. -/
def disabledInput : RunInput :=
  { rules := [disabledRule], lock := [], fetch := .ok [], env := okEnv, nowMs := 0 }

/-- A run input whose only rule is enabled and whose snapshot is empty. -/
def enabledInput : RunInput :=
  { rules := [sampleRule], lock := [], fetch := .ok [], env := okEnv, nowMs := 0 }

/-- A run input whose snapshot fetch throws ("net down"). -/
def failFetchInput : RunInput :=
  { rules := [sampleRule], lock := [], fetch := .error "net down", env := okEnv, nowMs := 5 }

/-- A run input whose rule id is already in the run-lock set. -/
def lockedInput : RunInput :=
  { rules := [sampleRule], lock := ["r1"], fetch := .ok [], env := okEnv, nowMs := 0 }

/-- The run input of spec Scenario A: the completed item has
`progress = 1.0` (the 0..1 fraction targets carry) and the other `0.4`. -/
def scenarioAInput : RunInput :=
  { rules := [sampleRule], lock := [],
    fetch := .ok [sampleTarget 1 1, sampleTarget 2 (mkRat 2 5)],
    env := okEnv, nowMs := 0 }

/-- The `completed_notify` preset (the fourth entry of
`TORBOX_RULE_PRESETS`), restated for concrete witnesses. -/
def notifyPreset : TorBoxRulePreset :=
  { id := "completed_notify", name := "Notify on completion",
    description := "Creates a local notification when an item reaches 100%.",
    checkIntervalMinutes := 5,
    conditions := [⟨.progress, .equals, "100"⟩],
    action := .notify_user, actionValue := none, scope := none,
    isDangerous := false, category := "completion" }

/-!  Theorems. -/

/-- Claim C8: `matchesRule` returns true for every target when the
conditions list is empty and the scope is `all`; and any individual
condition whose value is empty or whitespace-only is vacuously true. -/
theorem matches_empty_conditions_and_blank_values :
    (∀ (nowMs : Int) (rule : TorBoxRule) (target : AutomationTarget),
      rule.conditions = [] → rule.scope = some Scope.all →
      matchesRule nowMs rule target = true)
    ∧ (∀ (nowMs : Int) (target : AutomationTarget) (cond : TorBoxRuleCondition),
      jsTrim cond.value = "" → conditionHolds nowMs target cond = true) := by
  constructor
  · intro nowMs rule target hconds hscope
    simp [matchesRule, hconds, hscope, scopeBlocks]
  · intro nowMs target cond hval
    simp [conditionHolds, hval]

/-- Witness for C8 at a concrete empty-condition rule and a concrete
whitespace-only condition. -/
theorem matches_empty_conditions_and_blank_values_witness :
    matchesRule 0 { sampleRule with conditions := [] } (sampleTarget 1 (mkRat 1 2)) = true
    ∧ conditionHolds 0 (sampleTarget 1 (mkRat 1 2)) ⟨.status, .equals, "   "⟩ = true :=
  ⟨matches_empty_conditions_and_blank_values.1 0 { sampleRule with conditions := [] }
      (sampleTarget 1 (mkRat 1 2)) rfl rfl,
   matches_empty_conditions_and_blank_values.2 0 (sampleTarget 1 (mkRat 1 2))
      ⟨.status, .equals, "   "⟩ (by decide)⟩

/-- Claim C9: every rule seeded from a preset is created with
`enabled = false`, and `addRuleFromPreset` never adds an enabled rule
(any rule in its output that was not already stored is disabled). -/
theorem preset_rules_created_disabled :
    (∀ (preset : TorBoxRulePreset) (nowMs : Int),
      (createRuleFromPreset preset nowMs).enabled = false)
    ∧ (∀ (rules : List TorBoxRule) (presetId : String) (nowMs : Int)
        (confirmDangerous : Bool) (r : TorBoxRule),
      r ∈ (addRuleFromPreset rules presetId nowMs confirmDangerous).1 →
      r ∈ rules ∨ r.enabled = false) := by
  constructor
  · intro preset nowMs
    rfl
  · intro rules presetId nowMs confirmDangerous r hmem
    unfold addRuleFromPreset at hmem
    cases hfind : TORBOX_RULE_PRESETS.find? (fun p => decide (p.id = presetId)) with
    | none =>
      rw [hfind] at hmem
      exact Or.inl hmem
    | some preset =>
      rw [hfind] at hmem
      dsimp only at hmem
      split at hmem
      · exact Or.inl hmem
      · rcases List.mem_append.mp hmem with h | h
        · exact Or.inl h
        · right
          rcases List.mem_singleton.mp h with rfl
          rfl

/-- Witness for C9: the `completed_notify` preset added to an empty store
yields a rule that is disabled. -/
theorem preset_rules_created_disabled_witness :
    (createRuleFromPreset notifyPreset 7).enabled = false
    ∧ (createRuleFromPreset notifyPreset 7 ∈ ([] : List TorBoxRule)
       ∨ (createRuleFromPreset notifyPreset 7).enabled = false) :=
  ⟨preset_rules_created_disabled.1 notifyPreset 7,
   preset_rules_created_disabled.2 [] "completed_notify" 7 true
     (createRuleFromPreset notifyPreset 7) (by decide)⟩

/-- For the link/stream actions a first file id of `0` behaves exactly
like an empty `fileIds` list: no call, not affected. -/
theorem execTargetCalls_zero_head (a : RuleAction) (t : AutomationTarget) (l : List ℕ)
    (h : a = RuleAction.request_download_link ∨ a = RuleAction.create_stream) :
    execTargetCalls a { t with fileIds := 0 :: l } = execTargetCalls a { t with fileIds := [] }
    ∧ execTargetCalls a { t with fileIds := 0 :: l } = ([], false) := by
  rcases h with rfl | rfl <;> simp [execTargetCalls]

/-- The executor loop only looks at a target through `execTargetCalls`,
so targets with equal step data are interchangeable. -/
theorem execLoop_congr (env : ApiEnv) (a : RuleAction) (t1 t2 : AutomationTarget)
    (h : execTargetCalls a t1 = execTargetCalls a t2) :
    ∀ (pre post : List AutomationTarget) (n : ℕ),
      execLoop env a (pre ++ t1 :: post) n = execLoop env a (pre ++ t2 :: post) n := by
  intro pre
  induction pre with
  | nil =>
    intro post n
    simp only [List.nil_append, execLoop, h]
  | cons p ps ih =>
    intro post n
    simp only [List.cons_append, execLoop]
    rcases hrc : runCalls env (execTargetCalls a p).1 with ⟨made, e⟩
    cases e with
    | none => simp [hrc, ih]
    | some m => simp [hrc]

/-- Claim C10: for the `request_download_link` and `create_stream`
actions, a target whose first file id is the number `0` is skipped by the
falsiness check exactly as if it had no file ids at all: `executeAction`
behaves identically on the two targets, and the target gets no call and
is not counted as affected. -/
theorem zero_file_id_skipped :
    ∀ (env : ApiEnv) (rule : TorBoxRule) (pre post : List AutomationTarget)
      (t : AutomationTarget) (l : List ℕ),
      (rule.action = RuleAction.request_download_link ∨ rule.action = RuleAction.create_stream) →
      executeAction env rule (pre ++ { t with fileIds := 0 :: l } :: post)
        = executeAction env rule (pre ++ { t with fileIds := [] } :: post)
      ∧ execTargetCalls rule.action { t with fileIds := 0 :: l } = ([], false) := by
  intro env rule pre post t l h
  have hcalls := execTargetCalls_zero_head rule.action t l h
  constructor
  · have h1 : (pre ++ { t with fileIds := 0 :: l } :: post).isEmpty = false := by
      cases pre <;> rfl
    have h2 : (pre ++ { t with fileIds := [] } :: post).isEmpty = false := by
      cases pre <;> rfl
    unfold executeAction
    rw [h1, h2, execLoop_congr env rule.action _ _ hcalls.1 pre post 0]
  · exact hcalls.2

/-- Witness for C10: a single-target run of the link action on a target
whose only file ids are `[0, 5]`. -/
theorem zero_file_id_skipped_witness :
    executeAction okEnv linkRule ([] ++ { sampleTarget 1 1 with fileIds := 0 :: [5] } :: [])
      = executeAction okEnv linkRule ([] ++ { sampleTarget 1 1 with fileIds := [] } :: [])
    ∧ execTargetCalls linkRule.action { sampleTarget 1 1 with fileIds := 0 :: [5] }
      = ([], false) :=
  zero_file_id_skipped okEnv linkRule [] [] (sampleTarget 1 1) [5] (Or.inl rfl)

/-- Claim C6: creating a custom rule with action `reannounce_torrent` and
any scope other than `torrent` throws the validation error and leaves the
rule list unchanged, and an update that would produce that illegal
combination is rejected with the stored rules unchanged. -/
theorem reannounce_requires_torrent_scope :
    (∀ (rules : List TorBoxRule) (params : CustomRuleParams) (nowMs : Int),
      params.action = RuleAction.reannounce_torrent →
      params.scope.getD Scope.all ≠ Scope.torrent →
      (createCustomRule rules params nowMs).1 = rules
      ∧ (createCustomRule rules params nowMs).2
          = Except.error "This action is not supported for the selected scope.")
    ∧ (∀ (rules : List TorBoxRule) (ruleId : String) (u : RuleUpdates)
        (existing : TorBoxRule),
      rules.find? (fun r => decide (r.id = ruleId)) = some existing →
      u.action.getD existing.action = RuleAction.reannounce_torrent →
      resolvedScope u existing ≠ Scope.torrent →
      updateRule rules ruleId u = (rules, true)) := by
  constructor
  · intro rules params nowMs ha hs
    have hbad : isActionSupportedForScope params.action (params.scope.getD Scope.all) = false := by
      simp [isActionSupportedForScope, ha, hs]
    refine ⟨?_, ?_⟩ <;> simp [createCustomRule, hbad]
  · intro rules ruleId u existing hfind ha hs
    have hbad : isActionSupportedForScope (u.action.getD existing.action)
        (resolvedScope u existing) = false := by
      simp [isActionSupportedForScope, ha, hs]
    simp [updateRule, hfind, hbad]

/-- Witness for C6: Scenario C's creation attempt
(`reannounce_torrent` with scope `web`) and the analogous update of the
stored sample rule (scope `all`). -/
theorem reannounce_requires_torrent_scope_witness :
    ((createCustomRule [] scenarioCParams 0).1 = []
      ∧ (createCustomRule [] scenarioCParams 0).2
          = Except.error "This action is not supported for the selected scope.")
    ∧ updateRule [sampleRule] "r1" { action := some .reannounce_torrent }
        = ([sampleRule], true) :=
  ⟨reannounce_requires_torrent_scope.1 [] scenarioCParams 0 rfl (by decide),
   reannounce_requires_torrent_scope.2 [sampleRule] "r1"
     { action := some .reannounce_torrent } sampleRule (by decide) rfl (by decide)⟩

/-- Claim C1 counterexample: with two matching torrents where pausing the
first rejects, the batch aborts — only the first control call is ever
attempted, the second target (whose call would have succeeded) is never
reached, and `executeAction` throws instead of absorbing the failure into
the affected count. -/
theorem per_target_failure_not_isolated_cex :
    executeAction failPauseEnv pauseRule [sampleTarget 1 1, sampleTarget 2 1]
      = ⟨[ApiCall.controlTorrent 1 "pause"], [], Outcome.thrown "boom"⟩
    ∧ failPauseEnv (ApiCall.controlTorrent 2 "pause") = none := by
  exact ⟨by decide, by decide⟩

/-- A throwing target ends the executor loop: the loop's value does not
depend on the targets after it, and its error is the thrown message. -/
theorem execLoop_abort (env : ApiEnv) (a : RuleAction) (t : AutomationTarget)
    (made : List ApiCall) (m : String)
    (ht : runCalls env (execTargetCalls a t).1 = (made, some m)) :
    ∀ (pre : List AutomationTarget),
      (∀ t' ∈ pre, (runCalls env (execTargetCalls a t').1).2 = none) →
      ∀ (rest : List AutomationTarget) (n : ℕ),
        execLoop env a (pre ++ t :: rest) n = execLoop env a (pre ++ [t]) n
        ∧ (execLoop env a (pre ++ [t]) n).2.2 = some m := by
  intro pre
  induction pre with
  | nil =>
    intro _ rest n
    refine ⟨?_, ?_⟩ <;> simp only [List.nil_append, execLoop, ht]
  | cons p ps ih =>
    intro hpre rest n
    have hp := hpre p (by simp)
    rcases hrc : runCalls env (execTargetCalls a p).1 with ⟨madep, ep⟩
    rw [hrc] at hp
    simp only at hp
    subst hp
    have ihr := ih (fun t' ht' => hpre t' (List.mem_cons_of_mem _ ht')) rest
      (n + if (execTargetCalls a p).2 then 1 else 0)
    refine ⟨?_, ?_⟩ <;> simp only [List.cons_append, execLoop, hrc, List.append_eq]
    · rw [ihr.1]
    · simpa using ihr.2

/-- Claim C1 (amended): a thrown control-API call for one target aborts
the batch.  Provided every earlier target's calls resolved, the run's
whole observable result equals that of a batch that simply ends at the
failing target — the remaining targets are never attempted — and the
outcome is the propagated error (recorded by `runRule` as a failed run),
not a silent skip. -/
theorem per_target_failure_aborts_batch :
    ∀ (env : ApiEnv) (rule : TorBoxRule) (pre : List AutomationTarget)
      (t : AutomationTarget) (rest : List AutomationTarget)
      (made : List ApiCall) (m : String),
      (∀ t' ∈ pre, (runCalls env (execTargetCalls rule.action t').1).2 = none) →
      runCalls env (execTargetCalls rule.action t).1 = (made, some m) →
      executeAction env rule (pre ++ t :: rest) = executeAction env rule (pre ++ [t])
      ∧ (executeAction env rule (pre ++ [t])).outcome = Outcome.thrown m := by
  intro env rule pre t rest made m hpre ht
  have h := execLoop_abort env rule.action t made m ht pre hpre rest 0
  have h1 : (pre ++ t :: rest).isEmpty = false := by cases pre <;> rfl
  have h2 : (pre ++ [t]).isEmpty = false := by cases pre <;> rfl
  constructor
  · unfold executeAction
    rw [h1, h2, h.1]
  · unfold executeAction
    rw [h2]
    rcases hel : execLoop env rule.action (pre ++ [t]) 0 with ⟨calls, aff, e⟩
    have he : e = some m := by
      have := h.2
      rw [hel] at this
      simpa using this
    subst he
    simp

/-- Witness for C1 (amended): the two-torrent pause batch whose first
call rejects with "boom". -/
theorem per_target_failure_aborts_batch_witness :
    (executeAction failPauseEnv pauseRule ([] ++ sampleTarget 1 1 :: [sampleTarget 2 1])
        = executeAction failPauseEnv pauseRule ([] ++ [sampleTarget 1 1]))
    ∧ (executeAction failPauseEnv pauseRule ([] ++ [sampleTarget 1 1])).outcome
        = Outcome.thrown "boom" :=
  per_target_failure_aborts_batch failPauseEnv pauseRule [] (sampleTarget 1 1)
    [sampleTarget 2 1] [ApiCall.controlTorrent 1 "pause"] "boom"
    (by intro t' ht'; cases ht') (by decide)

/-- Claim C2, evaluated on the code at the spec's Scenario A input: with
progress carried as the 0..1 fraction, the condition value "100" parses
to the number 100 and matches neither the completed target
(`progress = 1`) nor the partial one (`progress = 0.4`), so zero targets
match, `executeAction` receives the empty list and returns
"No matching downloads found.", no notification is appended, and the run
records that summary — not "Processed 1 item.". -/
theorem scenarioA_completed_item_never_matches :
    compareValues (JVal.num 1) "100" Operator.equals = false
    ∧ matchesRule 0 sampleRule (sampleTarget 1 1) = false
    ∧ matchesRule 0 sampleRule (sampleTarget 2 (mkRat 2 5)) = false
    ∧ executeAction okEnv sampleRule
        ([sampleTarget 1 1, sampleTarget 2 (mkRat 2 5)].filter (matchesRule 0 sampleRule))
        = ⟨[], [], Outcome.ok "No matching downloads found."⟩
    ∧ (runRule scenarioAInput "r1" false false).notifications = []
    ∧ (runRule scenarioAInput "r1" false false).rules.map (fun r => r.lastResult)
        = [some "Scheduled run: No matching downloads found."] := by
  exact ⟨by decide, by decide, by decide, by decide, by decide, by decide⟩

/-- Claim C3 counterexample: the stored rule is disabled, yet the manual
trigger `runNow` executes it — the Action Executor is invoked and the
rule's run history is written. -/
theorem disabled_rule_runs_manually_cex :
    disabledInput.rules.all (fun r => !r.enabled) = true
    ∧ (runNow disabledInput "r1").executorInvoked = true
    ∧ (runNow disabledInput "r1").rules.map (fun r => r.runCount) = [1] := by
  exact ⟨by decide, by decide, by decide⟩

/-- Claim C3 (amended): a disabled rule is never run by a scheduled
trigger — the tick body skips it and the poll-path `runRule` (no
`allowDisabled`) falls through untouched — but the manual trigger
`runNow` passes `allowDisabled: true` and will run even a disabled rule
once its guards pass. -/
theorem disabled_rules_only_skip_scheduled_runs :
    (∀ (rule : TorBoxRule) (nowMs : Int),
      rule.enabled = false → tickTriggers rule nowMs = false)
    ∧ (∀ (inp : RunInput) (ruleId : String) (manual : Bool) (rule : TorBoxRule),
      inp.rules.find? (fun r => decide (r.id = ruleId)) = some rule →
      rule.enabled = false →
      runRule inp ruleId manual false = noChange inp)
    ∧ (∀ (inp : RunInput) (ruleId : String) (rule : TorBoxRule),
      inp.rules.find? (fun r => decide (r.id = ruleId)) = some rule →
      rule.lastRunAt = none →
      runNow inp ruleId = runRule inp ruleId true true)
    ∧ (∀ (inp : RunInput) (ruleId : String) (rule : TorBoxRule)
        (snapshot : List AutomationTarget) (manual : Bool),
      inp.lock.contains ruleId = false →
      inp.rules.find? (fun r => decide (r.id = ruleId)) = some rule →
      isActionSupportedForScope rule.action (rule.scope.getD Scope.all) = true →
      inp.fetch = Except.ok snapshot →
      (runRule inp ruleId manual true).executorInvoked = true) := by
  refine ⟨?_, ?_, ?_, ?_⟩
  · intro rule nowMs h
    simp [tickTriggers, h]
  · intro inp ruleId manual rule hfind hen
    unfold runRule
    by_cases hlock : inp.lock.contains ruleId = true
    · simp at hlock
      simp [hlock]
    · simp at hlock
      simp [hlock, hfind, hen]
  · intro inp ruleId rule hfind hlast
    simp [runNow, hfind, hlast]
  · intro inp ruleId rule snapshot manual hlock hfind hsup hfetch
    simp at hlock
    unfold runRule
    simp [hlock, hfind, hsup, hfetch]
    split <;> rfl

/-- Witness for C3 (amended) at the disabled sample rule. -/
theorem disabled_rules_only_skip_scheduled_runs_witness :
    tickTriggers disabledRule 99 = false
    ∧ runRule disabledInput "r1" false false = noChange disabledInput
    ∧ runNow disabledInput "r1" = runRule disabledInput "r1" true true
    ∧ (runRule disabledInput "r1" true true).executorInvoked = true :=
  ⟨disabled_rules_only_skip_scheduled_runs.1 disabledRule 99 rfl,
   disabled_rules_only_skip_scheduled_runs.2.1 disabledInput "r1" false disabledRule
     (by decide) rfl,
   disabled_rules_only_skip_scheduled_runs.2.2.1 disabledInput "r1" disabledRule
     (by decide) rfl,
   disabled_rules_only_skip_scheduled_runs.2.2.2 disabledInput "r1" disabledRule [] true
     (by decide) (by decide) (by decide) rfl⟩

/-- Claim C4 counterexample: with a non-numeric rule value, the ordering
operators do not fall back to a case-insensitive string comparison:
comparing the status string "b" against the value "a" with
`greater_than`, a string comparison of the lowercased sides says true,
yet `compareValues` pushes both sides back through `Number` and returns
false. -/
theorem relational_fallback_not_string_cex :
    jsNumber "a" = none
    ∧ strLexLt (jsToLower "a") (jsToLower "b") = true
    ∧ compareValues (JVal.str "b") "a" Operator.greater_than = false := by
  exact ⟨by decide, by decide, by decide⟩

/-- Claim C4 (amended): the rule value is parsed exactly when the
`Number.isFinite` gate accepts it; when both sides are numeric the six
(in)equality operators compare numerically; when the value does not parse,
`equals`/`not_equals`/`contains` fall back to case-insensitive
string comparison, but the four ordering operators instead coerce both
sides back through `Number` and return false whenever the value side is
not numeric — not a string comparison. -/
theorem compareValues_numeric_and_fallback_semantics :
    (∀ (a : ℚ) (raw : String) (r : ℚ), jsNumber raw = some r →
      compareValues (JVal.num a) raw Operator.equals = decide (a = r)
      ∧ compareValues (JVal.num a) raw Operator.not_equals = !decide (a = r)
      ∧ compareValues (JVal.num a) raw Operator.greater_than = decide (a > r)
      ∧ compareValues (JVal.num a) raw Operator.less_than = decide (a < r)
      ∧ compareValues (JVal.num a) raw Operator.greater_than_or_equal = decide (a ≥ r)
      ∧ compareValues (JVal.num a) raw Operator.less_than_or_equal = decide (a ≤ r))
    ∧ (∀ (s raw : String), jsNumber raw = none →
      compareValues (JVal.str s) raw Operator.equals
          = decide (jsToLower s = jsToLower raw)
      ∧ compareValues (JVal.str s) raw Operator.not_equals
          = !decide (jsToLower s = jsToLower raw)
      ∧ compareValues (JVal.str s) raw Operator.contains
          = strIncludes (jsToLower s) (jsToLower raw))
    ∧ (∀ (left : JVal) (raw : String) (op : Operator),
      jsNumber raw = none → jsNumber (jsToLower raw) = none →
      (op = Operator.greater_than ∨ op = Operator.less_than ∨
        op = Operator.greater_than_or_equal ∨ op = Operator.less_than_or_equal) →
      compareValues left raw op = false) := by
  refine ⟨?_, ?_, ?_⟩
  · intro a raw r h
    refine ⟨?_, ?_, ?_, ?_, ?_, ?_⟩ <;> simp [compareValues, h, jvalNumber, jvalStrictEq]
  · intro s raw h
    cases hs : jsNumber s <;>
      refine ⟨?_, ?_, ?_⟩ <;>
        simp [compareValues, h, hs, jvalNumber, jvalStrictEq, jvalToString]
  · intro left raw op h1 h2 hop
    rcases hop with rfl | rfl | rfl | rfl <;>
      cases hln : jvalNumber left <;>
      cases hl2 : jsNumber (jsToLower (jvalToString left)) <;>
      simp [compareValues, h1, h2, hln, hl2, jvalNumber]

/-- Witness for C4 (amended): numeric path at `1 < 100`, string fallback
for `contains` on a status phrase, and the ordering fallback on
non-numeric sides. -/
theorem compareValues_numeric_and_fallback_semantics_witness :
    compareValues (JVal.num 1) "100" Operator.less_than = decide ((1 : ℚ) < 100)
    ∧ compareValues (JVal.str "Stalled (no seeds)") "stalled" Operator.contains
        = strIncludes (jsToLower "Stalled (no seeds)") (jsToLower "stalled")
    ∧ compareValues (JVal.str "b") "a" Operator.greater_than = false :=
  ⟨(compareValues_numeric_and_fallback_semantics.1 1 "100" 100 (by decide)).2.2.2.1,
   (compareValues_numeric_and_fallback_semantics.2.1 "Stalled (no seeds)" "stalled"
      (by decide)).2.2,
   compareValues_numeric_and_fallback_semantics.2.2 (JVal.str "b") "a"
      Operator.greater_than (by decide) (by decide) (Or.inl rfl)⟩

/-- Claim C5 counterexample: on a successful run `lastResult` is not the
executor summary verbatim — the code prefixes the trigger kind — so the
stored value is neither the executor summary nor of the form
"Failed: <message>". -/
theorem lastResult_is_prefixed_cex :
    (runRule enabledInput "r1" true false).rules.map (fun r => r.lastResult)
      = [some "Manual run: No matching downloads found."]
    ∧ (executeAction okEnv sampleRule []).outcome
        = Outcome.ok "No matching downloads found."
    ∧ "Manual run: No matching downloads found." ≠ "No matching downloads found."
    ∧ strStartsWith "Manual run: No matching downloads found." "Failed: " = false := by
  exact ⟨by decide, by decide, by decide, by decide⟩

/-- Claim C5 (amended): every run that passes the guards (lock free, rule
found, enabled or manually allowed, scope supported) writes its history
exactly once: `lastRunAt := now`, `runCount + 1`, and `lastResult` set to
"<Manual run|Scheduled run>: <executor summary>" on success or
"Failed: <message>" on a thrown error; on a fetch failure no action call
is made and the executor is never invoked. -/
theorem run_history_always_recorded :
    ∀ (inp : RunInput) (ruleId : String) (manual allowDisabled : Bool)
      (rule : TorBoxRule),
      inp.lock.contains ruleId = false →
      inp.rules.find? (fun r => decide (r.id = ruleId)) = some rule →
      (rule.enabled = true ∨ allowDisabled = true) →
      isActionSupportedForScope rule.action (rule.scope.getD Scope.all) = true →
      ∃ msg : String,
        (runRule inp ruleId manual allowDisabled).rules
          = recordRun inp.rules rule.id inp.nowMs msg
        ∧ ((∃ e, inp.fetch = Except.error e ∧ msg = "Failed: " ++ e
              ∧ (runRule inp ruleId manual allowDisabled).calls = []
              ∧ (runRule inp ruleId manual allowDisabled).executorInvoked = false)
           ∨ (∃ summary, msg
                = (if manual then "Manual run" else "Scheduled run") ++ ": " ++ summary)
           ∨ (∃ em, msg = "Failed: " ++ em)) := by
  intro inp ruleId manual allowDisabled rule hlock hfind hen hsup
  simp at hlock
  have hguard : (!rule.enabled && !allowDisabled) = false := by
    rcases hen with h | h <;> simp [h]
  cases hfetch : inp.fetch with
  | error e =>
    have hrun : runRule inp ruleId manual allowDisabled =
        { rules := recordRun inp.rules rule.id inp.nowMs ("Failed: " ++ e),
          lock := inp.lock, calls := [], notifications := [],
          executorInvoked := false,
          alert := if manual then some ("Rule Failed", e) else none } := by
      unfold runRule
      simp [hlock, hfind, hguard, hsup, hfetch]
    exact ⟨"Failed: " ++ e, by rw [hrun], Or.inl ⟨e, rfl, rfl, by rw [hrun], by rw [hrun]⟩⟩
  | ok snapshot =>
    cases hout : (executeAction inp.env rule
        (snapshot.filter (matchesRule inp.nowMs rule))).outcome with
    | ok summary =>
      refine ⟨(if manual then "Manual run" else "Scheduled run") ++ ": " ++ summary,
        ?_, Or.inr (Or.inl ⟨summary, rfl⟩)⟩
      unfold runRule
      simp [hlock, hfind, hguard, hsup, hfetch, hout]
    | thrown m =>
      refine ⟨"Failed: " ++ m, ?_, Or.inr (Or.inr ⟨m, rfl⟩)⟩
      unfold runRule
      simp [hlock, hfind, hguard, hsup, hfetch, hout]

/-- Witness for C5 (amended): the fetch-failure run of Scenario D. -/
theorem run_history_always_recorded_witness :
    ∃ msg : String,
      (runRule failFetchInput "r1" false false).rules
        = recordRun failFetchInput.rules sampleRule.id failFetchInput.nowMs msg
      ∧ ((∃ e, failFetchInput.fetch = Except.error e ∧ msg = "Failed: " ++ e
            ∧ (runRule failFetchInput "r1" false false).calls = []
            ∧ (runRule failFetchInput "r1" false false).executorInvoked = false)
         ∨ (∃ summary, msg
              = (if false then "Manual run" else "Scheduled run") ++ ": " ++ summary)
         ∨ (∃ em, msg = "Failed: " ++ em)) :=
  run_history_always_recorded failFetchInput "r1" false false sampleRule
    (by decide) (by decide) (Or.inl rfl) (by decide)

/-- Claim C7: a trigger for a rule id in the run-lock set returns with
nothing changed; in the interleaving model a second task triggered while
the lock is held skips without touching shared state; a second trigger
arriving at any point while the first run is in flight yields exactly one
executor invocation for the pair, with the second task skipped and the
lock free at the end; and the first task releases the lock whatever its
outcome (success, fetch throw, executor throw). -/
theorem run_lock_exclusivity :
    (∀ (inp : RunInput) (ruleId : String) (manual allowDisabled : Bool),
      inp.lock.contains ruleId = true →
      runRule inp ruleId manual allowDisabled = noChange inp)
    ∧ (∀ (o1 o2 : RunOutcome) (s : LockSys), s.lock = true → s.pc2 = 0 →
      sysStep o1 o2 s true = { s with pc2 := 5 })
    ∧ (∀ (o1 o2 : RunOutcome) (k : ℕ), o1 ≠ RunOutcome.fetchFail → k < 4 →
      sysRun o1 o2 (List.replicate k false ++ true :: List.replicate 4 false) lockStart
        = ⟨false, 1, 6, 5⟩)
    ∧ (∀ (o1 o2 : RunOutcome),
      (sysRun o1 o2 (List.replicate 4 false) lockStart).lock = false
      ∧ (sysRun o1 o2 (List.replicate 4 false) lockStart).pc1 = 6) := by
  refine ⟨?_, ?_, ?_, ?_⟩
  · intro inp ruleId manual allowDisabled hlock
    simp at hlock
    unfold runRule
    simp [hlock]
  · intro o1 o2 s h1 h2
    cases s with
    | mk lock inv pc1 pc2 =>
      dsimp at h1 h2
      subst h1
      subst h2
      rfl
  · intro o1 o2 k ho hk
    interval_cases k <;> cases o1 <;> cases o2 <;>
      first
        | exact absurd rfl ho
        | decide
  · intro o1 o2
    cases o1 <;> cases o2 <;> exact ⟨by decide, by decide⟩

/-- Witness for C7 at concrete schedules: the locked sample input, the
deterministic skip, a concurrent trigger one step into the first run, and
the release after an executor throw. -/
theorem run_lock_exclusivity_witness :
    runRule lockedInput "r1" false false = noChange lockedInput
    ∧ sysStep RunOutcome.success RunOutcome.success lockStart true
        = { lockStart with pc2 := 5 }
    ∧ sysRun RunOutcome.success RunOutcome.success
        (List.replicate 1 false ++ true :: List.replicate 4 false) lockStart
        = ⟨false, 1, 6, 5⟩
    ∧ ((sysRun RunOutcome.execFail RunOutcome.success
            (List.replicate 4 false) lockStart).lock = false
       ∧ (sysRun RunOutcome.execFail RunOutcome.success
            (List.replicate 4 false) lockStart).pc1 = 6) :=
  ⟨run_lock_exclusivity.1 lockedInput "r1" false false (by decide),
   run_lock_exclusivity.2.1 RunOutcome.success RunOutcome.success lockStart rfl rfl,
   run_lock_exclusivity.2.2.1 RunOutcome.success RunOutcome.success 1
     (by decide) (by decide),
   run_lock_exclusivity.2.2.2 RunOutcome.execFail RunOutcome.success⟩

end TorDeck
